import Mathlib

/-!
Verification development for the agriculture-agent repository.

The definitions below are shallow embeddings of the Python sources:
  - src/06-mcp-http/mcp_servers/forecast_server.py
  - src/06-mcp-http/mcp_servers/historical_server.py
  - src/06-mcp-http/mcp_servers/agricultural_server.py
  - src/06-mcp-http/mcp_servers/enhanced_api_utils.py
  - src/05-advanced-mcp/mcp_servers/historical_server.py
  - src/05-advanced-mcp/mcp_servers/agricultural_server.py
  - src/05-advanced-mcp/mcp_servers/enhanced_api_utils.py
  - src/05-advanced-mcp/mcp_servers/base_server.py
  - src/05-advanced-mcp/weather_agent/mcp_agent.py and
    src/06-mcp-http/weather_agent/mcp_agent.py
  - src/07-advanced-http-agent/mcp_servers/forecast_server_simple.py
  - src/04-mcp-architecture/mcp_servers/weather_server.py and models.py

Dates are modelled as integers (a day count), machine floats as rationals,
and network input/output is passed in explicitly as the outcome the
surrounding code would observe (the geocoding result list, the outcome of
each HTTP attempt).  Control flow, error messages and status codes follow
the Python sources line by line.
-/

/-! ## Geocoding (src/06-mcp-http/mcp_servers/enhanced_api_utils.py and
    src/04-mcp-architecture/mcp_servers/weather_server.py) -/

/-- One entry of the Open-Meteo geocoding response, with the fields the
repository reads: name, admin1 (state or province), country, coordinates.
A field that is absent in the JSON is `none`. -/
structure GeoResult where
  name : Option String
  admin1 : Option String
  country : Option String
  latitude : Rat
  longitude : Rat
deriving DecidableEq, Repr

/-- Whether the list `pre` is an initial segment of `l` (character lists). -/
def leadMatch : List Char → List Char → Bool
  | [], _ => true
  | _ :: _, [] => false
  | a :: as, b :: bs => a == b && leadMatch as bs

/-- Whether `part` occurs contiguously anywhere inside `hay`. -/
def occursIn : List Char → List Char → Bool
  | part, [] => leadMatch part []
  | part, b :: bs => leadMatch part (b :: bs) || occursIn part bs

/-- The Python expression `part in whole` on strings: substring test. -/
def pyIn (part whole : String) : Bool :=
  occursIn part.toList whole.toList

/-- ASCII lowercasing of one character (the effect of Python `.lower()` on
the ASCII range; the repository only matches ASCII region names). -/
def asciiLower (c : Char) : Char :=
  if 'A' ≤ c ∧ c ≤ 'Z' then Char.ofNat (c.toNat + 32) else c

/-- Leading and trailing whitespace removed, as Python `.strip()`. -/
def trimChars (l : List Char) : List Char :=
  ((l.dropWhile Char.isWhitespace).reverse.dropWhile Char.isWhitespace).reverse

/-- Split at every comma, as Python `.split(",")`. -/
def splitComma : List Char → List (List Char)
  | [] => [[]]
  | c :: rest =>
      if c = ',' then [] :: splitComma rest
      else
        match splitComma rest with
        | [] => [[c]]
        | p :: ps => (c :: p) :: ps

/-- Python `s.strip()`. -/
def pyStrip (s : String) : String := ⟨trimChars s.data⟩

/-- Python `s.lower()` (ASCII range). -/
def pyLower (s : String) : String := ⟨s.data.map asciiLower⟩

/-- Python `s.split(",")`. -/
def pySplitComma (s : String) : List String := (splitComma s.data).map (fun l => ⟨l⟩)

/-- The query split on commas, each part stripped and lowercased
(enhanced_api_utils.py line 42:
`[part.strip().lower() for part in location.split(",")]`). -/
def locationParts (location : String) : List String :=
  (pySplitComma location).map (fun p => pyLower (pyStrip p))

/-- The candidate words of one geocoding result (enhanced_api_utils.py
lines 45-51): the lowercased name, admin1 and country fields, skipping
fields that are absent or empty (Python truthiness of `result.get(...)`). -/
def resultParts (r : GeoResult) : List String :=
  (match r.name with
    | some n => if n = "" then [] else [pyLower n]
    | none => []) ++
  (match r.admin1 with
    | some a => if a = "" then [] else [pyLower a]
    | none => []) ++
  (match r.country with
    | some c => if c = "" then [] else [pyLower c]
    | none => [])

/-- enhanced_api_utils.py lines 54-55: every user-provided query part must
occur inside some part of the candidate result. -/
def matchesAllParts (parts : List String) (r : GeoResult) : Bool :=
  parts.all (fun part => (resultParts r).any (fun rp => pyIn part rp))

/-- Shallow embedding of `get_coordinates_enhanced`
(src/06-mcp-http/mcp_servers/enhanced_api_utils.py lines 10-78).
`results` is the list the geocoding endpoint returned for the city part of
the query (`count=5`).  Returns the selected result together with the
confidence label, or `none` when the query is blank or nothing was found.
The Python fallback `except Exception: return None` is not modelled: the
body below is total. -/
def get_coordinates_enhanced (location : String) (results : List GeoResult) :
    Option (GeoResult × String) :=
  if pyStrip location = "" then none
  else
    match results with
    | [] => none
    | r0 :: _ =>
      -- line 41: `if "," in location:` re-rank by admin-region words
      if pyIn "," location then
        match results.find? (matchesAllParts (locationParts location)) with
        | some hit => some (hit, "High")
        | none => some (r0, "Medium")
      else
        some (r0, "Medium")

/-- Shallow embedding of the selection made by `get_coordinates`
(src/04-mcp-architecture/mcp_servers/weather_server.py lines 25-43): the
request uses `count=1` and the first result of the provider ranking is
taken unconditionally; no re-ranking. -/
def get_coordinates_first (results : List GeoResult) : Option GeoResult :=
  results.head?

/-! ## FastMCP weather tools (src/06-mcp-http/mcp_servers) -/

/-- Resolved coordinates (the `coords` dict of the Python servers). -/
structure Coords where
  latitude : Rat
  longitude : Rat
  name : String
deriving DecidableEq, Repr

/-- What `await get_coordinates(location)` yields inside a tool body:
a resolved location, a falsy result (location not found), or a raised
exception (caught by the enclosing `except Exception`). -/
inductive GeoOutcome
  | found (c : Coords)
  | notFound
  | raised (msg : String)
deriving DecidableEq, Repr

/-- What `await client.get(endpoint, params)` yields: parsed JSON data
(abstracted), an `httpx.HTTPStatusError` with the upstream status code and
body text, or any other raised exception. -/
inductive FetchOutcome
  | ok
  | httpStatusError (status : Int) (text : String)
  | raised (msg : String)
deriving DecidableEq, Repr

/-- Result of one FastMCP tool call: either the success payload
(abstracted to the provider-request parameters and the resolved location
name) or the structured error dict
`{"error": msg, "status_code": code}`. -/
inductive ToolResult (P : Type)
  | ok (params : P) (location_name : String)
  | error (msg : String) (status_code : Int)
deriving DecidableEq, Repr

/-- Provider-request parameters built by the forecast tool. -/
structure ForecastParams where
  latitude : Rat
  longitude : Rat
  forecast_days : Int
deriving DecidableEq, Repr

/-- Provider-request parameters built by the historical tool. -/
structure HistoricalParams where
  latitude : Rat
  longitude : Rat
  start_date : Int
  end_date : Int
deriving DecidableEq, Repr

/-- The day-count clamp of the stage-06 forecast tool
(src/06-mcp-http/mcp_servers/forecast_server.py line 61:
`"forecast_days": max(1, min(days, 16))`). -/
def forecast_days_http_06 (days : Int) : Int :=
  max 1 (min days 16)

/-- The day-count clamp of the stage-07 forecast tool
(src/07-advanced-http-agent/mcp_servers/forecast_server_simple.py line 60:
`"forecast_days": min(max(days, 1), 16)`). -/
def forecast_days_simple_07 (days : Int) : Int :=
  min (max days 1) 16

/-- The day-count cap of `EnhancedOpenMeteoClient.get_forecast`
(src/05-advanced-mcp/mcp_servers/enhanced_api_utils.py line 267:
`"forecast_days": min(days, 16)`).  Note: no lower clamp. -/
def enhanced_get_forecast_days (days : Int) : Int :=
  min days 16

/-- The day-count clamp of the agricultural tool, identical in
src/06-mcp-http/mcp_servers/agricultural_server.py line 42
(`days = min(max(days, 1), 7)`) and
src/05-advanced-mcp/mcp_servers/agricultural_server.py line 58
(`days = min(max(arguments.get("days", 7), 1), 7)`). -/
def agricultural_days_clamp (days : Int) : Int :=
  min (max days 1) 7

/-- Shallow embedding of `get_weather_forecast`
(src/06-mcp-http/mcp_servers/forecast_server.py lines 26-85).
Coordinates override the location name when both are given; otherwise the
geocoding outcome decides.  The `try`/`except` of the source becomes the
explicit handling of the raised outcomes: every branch returns a value. -/
def get_weather_forecast_06 (location : String) (days : Int)
    (latitude longitude : Option Rat) (geo : GeoOutcome) (fetch : FetchOutcome) :
    ToolResult ForecastParams :=
  let finish : Coords → ToolResult ForecastParams := fun coords =>
    let params : ForecastParams :=
      ⟨coords.latitude, coords.longitude, forecast_days_http_06 days⟩
    match fetch with
    | FetchOutcome.ok => ToolResult.ok params coords.name
    | FetchOutcome.httpStatusError st txt =>
        ToolResult.error ("Error from upstream API: " ++ txt) st
    | FetchOutcome.raised m =>
        ToolResult.error ("An unexpected error occurred: " ++ m) 500
  match latitude, longitude with
  | some lat, some lon =>
      finish ⟨lat, lon,
        if location = "" then toString lat ++ "," ++ toString lon else location⟩
  | _, _ =>
      match geo with
      | GeoOutcome.found c => finish c
      | GeoOutcome.notFound =>
          ToolResult.error ("Could not find location: " ++ location) 404
      | GeoOutcome.raised m =>
          ToolResult.error ("An unexpected error occurred: " ++ m) 500

/-- Shallow embedding of `get_historical_weather`
(src/06-mcp-http/mcp_servers/historical_server.py lines 26-86).
`start_date` and `end_date` are already-parsed dates (day numbers), and
`today` is the value of `date.today()`; the `"Invalid date format"` branch
for unparsable strings is outside this model.  Lines 51-55: reject when
`end < start`, then compute `min_date = today - 5` and reject when
`end > min_date`. -/
def get_historical_weather_06 (today : Int) (location : String)
    (start_date end_date : Int) (latitude longitude : Option Rat)
    (geo : GeoOutcome) (fetch : FetchOutcome) : ToolResult HistoricalParams :=
  if end_date < start_date then
    ToolResult.error "End date must be after start date." 400
  else if today - 5 < end_date then
    ToolResult.error ("Historical data only available before " ++
      toString (today - 5) ++ ". Use forecast API for recent dates.") 400
  else
    let finish : Coords → ToolResult HistoricalParams := fun coords =>
      let params : HistoricalParams :=
        ⟨coords.latitude, coords.longitude, start_date, end_date⟩
      match fetch with
      | FetchOutcome.ok => ToolResult.ok params coords.name
      | FetchOutcome.httpStatusError st txt =>
          ToolResult.error ("Error from upstream API: " ++ txt) st
      | FetchOutcome.raised m =>
          ToolResult.error ("An unexpected error occurred: " ++ m) 500
    match latitude, longitude with
    | some lat, some lon =>
        finish ⟨lat, lon,
          if location = "" then toString lat ++ "," ++ toString lon else location⟩
    | _, _ =>
        match geo with
        | GeoOutcome.found c => finish c
        | GeoOutcome.notFound =>
            ToolResult.error ("Could not find location: " ++ location) 404
        | GeoOutcome.raised m =>
            ToolResult.error ("An unexpected error occurred: " ++ m) 500

/-- Outcome of the date checks of the stage-05 stdio historical server. -/
inductive DateCheckResult
  | orderError
  | embargoError (min_date : Int)
  | pass
deriving DecidableEq, Repr

/-- The date checks of `call_tool`
(src/05-advanced-mcp/mcp_servers/historical_server.py lines 82-92): the
same policy as the stage-06 server, returned as plain text there. -/
def historical_date_check_05 (today start_date end_date : Int) : DateCheckResult :=
  if end_date < start_date then DateCheckResult.orderError
  else if today - 5 < end_date then DateCheckResult.embargoError (today - 5)
  else DateCheckResult.pass

/-! ## Enhanced client request loop
    (src/05-advanced-mcp/mcp_servers/enhanced_api_utils.py lines 129-175) -/

/-- What one HTTP attempt inside `EnhancedOpenMeteoClient._make_request`
observes: a parsed JSON body, a 429 rate-limit response (line 150), an
`httpx.HTTPStatusError`, or an `httpx.RequestError`. -/
inductive AttemptOutcome
  | ok (body : String)
  | rateLimited (retry_after : Int)
  | httpStatusError (status : Int) (text : String)
  | requestError (msg : String)
deriving DecidableEq, Repr

/-- The exceptions `_make_request` can raise: `APIError` (with the message
built at lines 165 and 167, or `"Max retries exceeded"` at line 175) and
`RateLimitError` (line 153, re-raised without retry at line 169). -/
inductive APIError
  | apiError (msg : String)
  | rateLimitError (retry_after : Int)
deriving DecidableEq, Repr

/-- Observable trace of one `_make_request` call: the returned body or the
raised error, the number of attempts actually made, and the seconds slept
between attempts (line 173: `await asyncio.sleep(2 ** attempt)`). -/
structure RequestTrace where
  result : Except APIError String
  attempts : Nat
  sleeps : List Nat
deriving Repr

/-- The `for attempt in range(self.max_retries)` loop of `_make_request`
(lines 144-175).  `attempt` is the current loop index and the list holds
the outcome each remaining attempt would observe, so the initial list has
`max_retries` entries.  A success returns at once; a rate-limit error is
raised at once; any other failure is remembered as `last_error`, and if a
further attempt remains the loop sleeps `2 ** attempt` seconds and goes
round again, otherwise the last error is raised (line 175). -/
def makeRequestGo : Nat → List AttemptOutcome → RequestTrace
  | attempt, [] =>
      ⟨Except.error (APIError.apiError "Max retries exceeded"), attempt, []⟩
  | attempt, AttemptOutcome.ok body :: _ =>
      ⟨Except.ok body, attempt + 1, []⟩
  | attempt, AttemptOutcome.rateLimited r :: _ =>
      ⟨Except.error (APIError.rateLimitError r), attempt + 1, []⟩
  | attempt, AttemptOutcome.httpStatusError st txt :: rest =>
      match rest with
      | [] =>
          ⟨Except.error (APIError.apiError ("HTTP " ++ toString st ++ ": " ++ txt)),
            attempt + 1, []⟩
      | r :: rs =>
          let t := makeRequestGo (attempt + 1) (r :: rs)
          ⟨t.result, t.attempts, 2 ^ attempt :: t.sleeps⟩
  | attempt, AttemptOutcome.requestError m :: rest =>
      match rest with
      | [] =>
          ⟨Except.error (APIError.apiError ("Request failed: " ++ m)),
            attempt + 1, []⟩
      | r :: rs =>
          let t := makeRequestGo (attempt + 1) (r :: rs)
          ⟨t.result, t.attempts, 2 ^ attempt :: t.sleeps⟩

/-- One call of `EnhancedOpenMeteoClient._make_request` with
`max_retries = outcomes.length` (the constructor default is 3, line 110),
on a cache miss. -/
def makeRequest (outcomes : List AttemptOutcome) : RequestTrace :=
  makeRequestGo 0 outcomes

/-- Whether an attempt outcome is one the loop retries (HTTP status errors
and request errors; successes end the loop and rate limits are re-raised). -/
def retriableFailure : AttemptOutcome → Bool
  | AttemptOutcome.httpStatusError _ _ => true
  | AttemptOutcome.requestError _ => true
  | _ => false

/-! ## Validated dispatch
    (src/05-advanced-mcp/mcp_servers/base_server.py lines 114-183) -/

/-- What running the tool handler yields: a response, or a raised
exception with its type name and message. -/
inductive HandlerOutcome (R : Type)
  | ok (resp : R)
  | exn (error_type error_message : String)
deriving DecidableEq, Repr

/-- The result `_handle_tool_with_validation` hands back to the MCP layer:
a success response, the validation-error response built at lines 141-151,
or the generic error response built at lines 176-183 for exceptions caught
by the outer `except`. -/
inductive DispatchResult (R : Type)
  | success (resp : R)
  | validationError (error_message : String) (validation_errors : List String)
  | handlerError (error_type error_message : String)
deriving DecidableEq, Repr

/-- Shallow embedding of `BaseWeatherServer._handle_tool_with_validation`
(base_server.py lines 114-183).  `get_input_model` may raise (the
subclasses raise `ValueError` for an unknown tool name), which the outer
`except Exception` converts; on success it yields the Pydantic validation
of the arguments, `Except.error` being a `ValidationError` with its list
of per-field messages.  Only after validation succeeds is the handler run;
a handler exception is converted, never propagated.  The second component
records whether the handler was invoked. -/
def handle_tool_with_validation {A I R : Type}
    (get_input_model : String → Except String (A → Except (List String) I))
    (handler : I → HandlerOutcome R) (name : String) (arguments : A) :
    DispatchResult R × Bool :=
  match get_input_model name with
  | Except.error m => (DispatchResult.handlerError "ValueError" m, false)
  | Except.ok validate =>
    match validate arguments with
    | Except.error errs =>
        (DispatchResult.validationError ("Invalid input for " ++ name) errs, false)
    | Except.ok input =>
      match handler input with
      | HandlerOutcome.ok r => (DispatchResult.success r, true)
      | HandlerOutcome.exn t m => (DispatchResult.handlerError t m, true)

/-! ## Agent query loop
    (src/06-mcp-http/weather_agent/mcp_agent.py lines 280-316 and the
    identical src/05-advanced-mcp/weather_agent/mcp_agent.py lines 212-248) -/

/-- The wall-clock bound passed to `asyncio.wait_for` (`timeout=120.0`). -/
def query_timeout_seconds : Nat := 120

/-- What `MCPWeatherAgent.query` does with one agent round: normal return
of the final message content, or a raised value. -/
inductive QueryResult
  | returned (text : String)
  | timeoutError (msg : String)
deriving DecidableEq, Repr

/-- Shallow embedding of `MCPWeatherAgent.query`.  `round` is the outcome
of `self.agent.ainvoke(...)` (final content, or the message of a raised
exception) and `elapsed_seconds` the wall-clock time that round took.
When the 120-second bound elapses, `asyncio.wait_for` raises
`TimeoutError`, which the method re-raises to the caller with a fixed
message; every other exception is caught and converted into a returned
string (lines 310-316). -/
def MCPWeatherAgent.query (elapsed_seconds : Nat) (round : Except String String) :
    QueryResult :=
  if query_timeout_seconds < elapsed_seconds then
    QueryResult.timeoutError "Query timed out after 120 seconds"
  else
    match round with
    | Except.ok content => QueryResult.returned content
    | Except.error m => QueryResult.returned ("An error occurred: " ++ m)

/-! ## Request models
    (src/04-mcp-architecture/mcp_servers/models.py lines 11-52, identical
    validators in src/05-advanced-mcp/mcp_servers/models.py lines 11-52 and
    src/07-advanced-http-agent/mcp_servers/weather_server.py lines 27-65) -/

/-- The validated `LocationInput` Pydantic model. -/
structure LocationInput where
  location : Option String
  latitude : Option Rat
  longitude : Option Rat
deriving DecidableEq, Repr

/-- Field validator `validate_latitude` (models.py lines 29-35):
`if v is not None and not -90 <= v <= 90: raise ValueError(...)`. -/
def validate_latitude (v : Option Rat) : Except String (Option Rat) :=
  match v with
  | none => Except.ok none
  | some x =>
      if -90 ≤ x ∧ x ≤ 90 then Except.ok (some x)
      else Except.error ("Latitude must be between -90 and 90, got " ++ toString x)

/-- Field validator `validate_longitude` (models.py lines 37-43). -/
def validate_longitude (v : Option Rat) : Except String (Option Rat) :=
  match v with
  | none => Except.ok none
  | some x =>
      if -180 ≤ x ∧ x ≤ 180 then Except.ok (some x)
      else Except.error ("Longitude must be between -180 and 180, got " ++ toString x)

/-- Construction of a `LocationInput`: Pydantic runs the field validators,
then the model validator `check_at_least_one_location`
(models.py lines 45-52). -/
def mkLocationInput (location : Option String) (latitude longitude : Option Rat) :
    Except String LocationInput := do
  let lat ← validate_latitude latitude
  let lon ← validate_longitude longitude
  if location.isSome || (lat.isSome && lon.isSome) then
    Except.ok ⟨location, lat, lon⟩
  else
    Except.error "Either location name or coordinates (latitude, longitude) required"

/-! ## Concrete geocoding data for the ambiguous-query scenario -/

/-- A first-ranked geocoding result for the query Paris: the French
capital. -/
def parisFrance : GeoResult :=
  ⟨some "Paris", some "Ile-de-France", some "France", 48.8566, 2.3522⟩

/-- A later geocoding result for the query Paris: Paris in Texas. -/
def parisTexas : GeoResult :=
  ⟨some "Paris", some "Texas", some "United States", 33.6609, -95.5555⟩

/-! ## Theorems -/

/-- C1: a historical-weather call with well-formed dates (and start not
after end) is rejected with the structured embargo error, status 400,
exactly when the end date lies inside the rolling 5-day window
(`end > today - 5`); otherwise the provider request is issued with the
given dates.  The stage-05 stdio server applies the same policy. -/
theorem historical_embargo_window (today : Int) (loc : String) (s e : Int)
    (lat lon : Rat) (g : GeoOutcome) (hloc : loc ≠ "") (hse : s ≤ e) :
    (today - 5 < e →
      get_historical_weather_06 today loc s e (some lat) (some lon) g FetchOutcome.ok
        = ToolResult.error ("Historical data only available before " ++
            toString (today - 5) ++ ". Use forecast API for recent dates.") 400)
  ∧ (e ≤ today - 5 →
      get_historical_weather_06 today loc s e (some lat) (some lon) g FetchOutcome.ok
        = ToolResult.ok ⟨lat, lon, s, e⟩ loc)
  ∧ (historical_date_check_05 today s e = DateCheckResult.pass ↔ e ≤ today - 5)
  ∧ (today - 5 < e →
      historical_date_check_05 today s e = DateCheckResult.embargoError (today - 5)) := by
  refine ⟨?_, ?_, ?_, ?_⟩
  · intro h
    unfold get_historical_weather_06
    rw [if_neg (by omega), if_pos h]
  · intro h
    unfold get_historical_weather_06
    rw [if_neg (by omega), if_neg (by omega)]
    dsimp only
    rw [if_neg hloc]
  · unfold historical_date_check_05
    split_ifs with h1 h2 <;> simp <;> omega
  · intro h
    unfold historical_date_check_05
    rw [if_neg (by omega), if_pos h]

/-- Witness for C1: with today = 100, an end date of 97 (today minus 3) is
rejected with the embargo error while an end date of 90 (today minus 10)
is accepted. -/
theorem historical_embargo_window_instance :
    get_historical_weather_06 100 "Ames, Iowa" 90 97 (some 42) (some (-93))
        GeoOutcome.notFound FetchOutcome.ok
      = ToolResult.error ("Historical data only available before " ++
          toString ((100 : Int) - 5) ++ ". Use forecast API for recent dates.") 400
  ∧ get_historical_weather_06 100 "Ames, Iowa" 85 90 (some 42) (some (-93))
        GeoOutcome.notFound FetchOutcome.ok
      = ToolResult.ok ⟨42, -93, 85, 90⟩ "Ames, Iowa" :=
  ⟨(historical_embargo_window 100 "Ames, Iowa" 90 97 42 (-93) GeoOutcome.notFound
      (by decide) (by decide)).1 (by decide),
   (historical_embargo_window 100 "Ames, Iowa" 85 90 42 (-93) GeoOutcome.notFound
      (by decide) (by decide)).2.1 (by decide)⟩

/-- C10: with start date equal to end date and the other checks passing,
the single-day range is accepted; the date-order check fires exactly when
the end date is strictly before the start date, despite the message text
"End date must be after start date."  Both the stage-06 tool and the
stage-05 date check behave this way. -/
theorem historical_single_day_accepted (today : Int) (loc : String) (s : Int)
    (lat lon : Rat) (g : GeoOutcome) (hloc : loc ≠ "") (hemb : s ≤ today - 5) :
    get_historical_weather_06 today loc s s (some lat) (some lon) g FetchOutcome.ok
        = ToolResult.ok ⟨lat, lon, s, s⟩ loc
  ∧ (∀ e, e ≤ today - 5 →
      (get_historical_weather_06 today loc s e (some lat) (some lon) g FetchOutcome.ok
          = ToolResult.error "End date must be after start date." 400 ↔ e < s))
  ∧ (∀ e, historical_date_check_05 today s e = DateCheckResult.orderError ↔ e < s) := by
  refine ⟨?_, ?_, ?_⟩
  · unfold get_historical_weather_06
    rw [if_neg (by omega), if_neg (by omega)]
    dsimp only
    rw [if_neg hloc]
  · intro e he
    constructor
    · intro hres
      by_contra hnot
      have hok : get_historical_weather_06 today loc s e (some lat) (some lon) g
          FetchOutcome.ok = ToolResult.ok ⟨lat, lon, s, e⟩ loc := by
        unfold get_historical_weather_06
        rw [if_neg (by omega), if_neg (by omega)]
        dsimp only
        rw [if_neg hloc]
      rw [hok] at hres
      simp at hres
    · intro hlt
      unfold get_historical_weather_06
      rw [if_pos hlt]
  · intro e
    unfold historical_date_check_05
    split_ifs with h1 h2 <;> simp <;> omega

/-- Witness for C10: with today = 100, the one-day range 90..90 passes the
date checks and reaches the provider, and the range 90..89 is rejected by
the order check. -/
theorem historical_single_day_accepted_instance :
    get_historical_weather_06 100 "Ames, Iowa" 90 90 (some 42) (some (-93))
        GeoOutcome.notFound FetchOutcome.ok
      = ToolResult.ok ⟨42, -93, 90, 90⟩ "Ames, Iowa"
  ∧ get_historical_weather_06 100 "Ames, Iowa" 90 89 (some 42) (some (-93))
        GeoOutcome.notFound FetchOutcome.ok
      = ToolResult.error "End date must be after start date." 400 :=
  ⟨(historical_single_day_accepted 100 "Ames, Iowa" 90 42 (-93) GeoOutcome.notFound
      (by decide) (by decide)).1,
   ((historical_single_day_accepted 100 "Ames, Iowa" 90 42 (-93) GeoOutcome.notFound
      (by decide) (by decide)).2.1 89 (by decide)).mpr (by decide)⟩

/-- C6: every failure mode of the stage-06 weather tools is returned as a
structured error value: geocoding miss gives `{"error": "Could not find
location: ...", "status_code": 404}`, an upstream HTTP error carries the
upstream status code, and any other exception is converted to a 500 error.
The embedded tool bodies are total functions into `ToolResult`, so no
exception escapes the transport boundary. -/
theorem weather_tool_failures_are_structured (loc : String) (days : Int)
    (st : Int) (txt m : String) (lat lon : Rat) (g : GeoOutcome) (f : FetchOutcome)
    (today s e : Int) (hse : s ≤ e) (hemb : e ≤ today - 5) :
    get_weather_forecast_06 loc days none none GeoOutcome.notFound f
        = ToolResult.error ("Could not find location: " ++ loc) 404
  ∧ get_weather_forecast_06 loc days (some lat) (some lon) g
        (FetchOutcome.httpStatusError st txt)
        = ToolResult.error ("Error from upstream API: " ++ txt) st
  ∧ get_weather_forecast_06 loc days (some lat) (some lon) g (FetchOutcome.raised m)
        = ToolResult.error ("An unexpected error occurred: " ++ m) 500
  ∧ get_weather_forecast_06 loc days none none (GeoOutcome.raised m) f
        = ToolResult.error ("An unexpected error occurred: " ++ m) 500
  ∧ get_historical_weather_06 today loc s e none none GeoOutcome.notFound f
        = ToolResult.error ("Could not find location: " ++ loc) 404
  ∧ get_historical_weather_06 today loc s e (some lat) (some lon) g
        (FetchOutcome.httpStatusError st txt)
        = ToolResult.error ("Error from upstream API: " ++ txt) st
  ∧ get_historical_weather_06 today loc s e (some lat) (some lon) g
        (FetchOutcome.raised m)
        = ToolResult.error ("An unexpected error occurred: " ++ m) 500 := by
  refine ⟨rfl, rfl, rfl, rfl, ?_, ?_, ?_⟩ <;>
    · unfold get_historical_weather_06
      rw [if_neg (by omega), if_neg (by omega)]

/-- Witness for C6: a concrete historical call on an unknown location with
valid dates returns the structured 404 error. -/
theorem weather_tool_failures_are_structured_instance :
    get_historical_weather_06 100 "Atlantis" 90 90 none none GeoOutcome.notFound
        FetchOutcome.ok
      = ToolResult.error ("Could not find location: " ++ "Atlantis") 404 :=
  (weather_tool_failures_are_structured "Atlantis" 7 503 "busy" "boom" 42 2
      GeoOutcome.notFound FetchOutcome.ok 100 90 90 (by decide) (by decide)).2.2.2.2.1

/-- C2 counterexample: `EnhancedOpenMeteoClient.get_forecast` computes
`forecast_days = min(days, 16)`, so a request of 0 days puts 0 in the
provider request, not 1: the claimed clamp into [1, 16] fails there. -/
theorem enhanced_forecast_days_zero_not_raised :
    enhanced_get_forecast_days 0 = 0 ∧ ¬ 1 ≤ enhanced_get_forecast_days 0 := by
  decide

/-- C2 (amended): the FastMCP forecast tools of stages 06 and 07 clamp the
requested day count into [1, 16] (30 becomes 16, 0 becomes 1), and the
value they send to the provider is exactly that clamp;
`EnhancedOpenMeteoClient.get_forecast` of stage 05 applies only the upper
cap of 16, passing day counts below 1 through unchanged. -/
theorem forecast_day_clamp_by_stage (d : Int) (loc : String) (lat lon : Rat)
    (g : GeoOutcome) :
    (1 ≤ forecast_days_http_06 d ∧ forecast_days_http_06 d ≤ 16)
  ∧ forecast_days_simple_07 d = forecast_days_http_06 d
  ∧ forecast_days_http_06 30 = 16
  ∧ forecast_days_http_06 0 = 1
  ∧ (∀ p n, get_weather_forecast_06 loc d (some lat) (some lon) g FetchOutcome.ok
        = ToolResult.ok p n → p.forecast_days = forecast_days_http_06 d)
  ∧ enhanced_get_forecast_days d ≤ 16
  ∧ enhanced_get_forecast_days 30 = 16
  ∧ (1 ≤ d → enhanced_get_forecast_days d = forecast_days_http_06 d)
  ∧ (d ≤ 0 → enhanced_get_forecast_days d = d) := by
  refine ⟨⟨?_, ?_⟩, ?_, by decide, by decide, ?_, ?_, by decide, ?_, ?_⟩
  · unfold forecast_days_http_06; omega
  · unfold forecast_days_http_06; omega
  · unfold forecast_days_simple_07 forecast_days_http_06; omega
  · intro p n h
    unfold get_weather_forecast_06 at h
    dsimp only at h
    simp only [ToolResult.ok.injEq] at h
    rw [← h.1]
  · unfold enhanced_get_forecast_days; omega
  · intro h1
    unfold enhanced_get_forecast_days forecast_days_http_06; omega
  · intro h0
    unfold enhanced_get_forecast_days; omega

/-- Witness for C2 (amended): at 5 requested days the stage-05 cap agrees
with the stage-06 clamp, and at -2 days it passes the value through. -/
theorem forecast_day_clamp_by_stage_instance :
    enhanced_get_forecast_days 5 = forecast_days_http_06 5
  ∧ enhanced_get_forecast_days (-2) = -2 :=
  ⟨(forecast_day_clamp_by_stage 5 "Ames" 42 (-93) GeoOutcome.notFound).2.2.2.2.2.2.2.1
      (by decide),
   (forecast_day_clamp_by_stage (-2) "Ames" 42 (-93) GeoOutcome.notFound).2.2.2.2.2.2.2.2
      (by decide)⟩

/-- C9: the agricultural tool clamps the requested day count into [1, 7]:
values above 7 are capped to 7, values below 1 are raised to 1, and values
already inside the range pass through unchanged. -/
theorem agricultural_days_clamped (d : Int) :
    (1 ≤ agricultural_days_clamp d ∧ agricultural_days_clamp d ≤ 7)
  ∧ (7 ≤ d → agricultural_days_clamp d = 7)
  ∧ (d ≤ 1 → agricultural_days_clamp d = 1)
  ∧ (1 ≤ d → d ≤ 7 → agricultural_days_clamp d = d) := by
  unfold agricultural_days_clamp
  refine ⟨⟨?_, ?_⟩, ?_, ?_, ?_⟩ <;> intros <;> omega

/-- Witness for C9: 30 requested days become 7 and 0 requested days become
1. -/
theorem agricultural_days_clamped_instance :
    agricultural_days_clamp 30 = 7 ∧ agricultural_days_clamp 0 = 1 :=
  ⟨(agricultural_days_clamped 30).2.1 (by decide),
   (agricultural_days_clamped 0).2.2.1 (by decide)⟩

/-- Helper for C3: when every attempt outcome is a retriable failure, the
loop starting at index `a` uses every remaining attempt, raises an
`APIError` at the end, and sleeps `2 ^ i` seconds after each attempt
except the last. -/
theorem makeRequestGo_all_fail (outcomes : List AttemptOutcome)
    (h : ∀ o ∈ outcomes, retriableFailure o = true) (a : Nat) :
    (makeRequestGo a outcomes).attempts = a + outcomes.length
  ∧ (∃ m, (makeRequestGo a outcomes).result = Except.error (APIError.apiError m))
  ∧ (makeRequestGo a outcomes).sleeps
      = (List.range (outcomes.length - 1)).map (fun i => 2 ^ (a + i)) := by
  induction outcomes generalizing a with
  | nil => exact ⟨rfl, ⟨"Max retries exceeded", rfl⟩, rfl⟩
  | cons o rest ih =>
    have ho : retriableFailure o = true := h o (List.mem_cons_self o rest)
    have hrest : ∀ x ∈ rest, retriableFailure x = true :=
      fun x hx => h x (List.mem_cons_of_mem o hx)
    cases o with
    | ok body => simp [retriableFailure] at ho
    | rateLimited r => simp [retriableFailure] at ho
    | httpStatusError st txt =>
      cases rest with
      | nil => exact ⟨by simp [makeRequestGo], ⟨_, rfl⟩, by simp [makeRequestGo]⟩
      | cons r rs =>
        have hh := ih hrest (a + 1)
        refine ⟨?_, ?_, ?_⟩
        · show (makeRequestGo (a + 1) (r :: rs)).attempts = _
          rw [hh.1]
          simp
          omega
        · exact hh.2.1
        · show (2 ^ a :: (makeRequestGo (a + 1) (r :: rs)).sleeps) = _
          rw [hh.2.2]
          simp only [List.length_cons, Nat.add_sub_cancel, List.range_succ_eq_map,
            List.map_cons, List.map_map]
          refine congrArg₂ _ (by rw [Nat.add_zero]) ?_
          apply List.map_congr_left
          intro i _
          simp only [Function.comp_apply]
          congr 1
          omega
    | requestError msg =>
      cases rest with
      | nil => exact ⟨by simp [makeRequestGo], ⟨_, rfl⟩, by simp [makeRequestGo]⟩
      | cons r rs =>
        have hh := ih hrest (a + 1)
        refine ⟨?_, ?_, ?_⟩
        · show (makeRequestGo (a + 1) (r :: rs)).attempts = _
          rw [hh.1]
          simp
          omega
        · exact hh.2.1
        · show (2 ^ a :: (makeRequestGo (a + 1) (r :: rs)).sleeps) = _
          rw [hh.2.2]
          simp only [List.length_cons, Nat.add_sub_cancel, List.range_succ_eq_map,
            List.map_cons, List.map_map]
          refine congrArg₂ _ (by rw [Nat.add_zero]) ?_
          apply List.map_congr_left
          intro i _
          simp only [Function.comp_apply]
          congr 1
          omega

/-- C3 counterexample: in `EnhancedOpenMeteoClient._make_request` a first
attempt that fails with a transport error is not surfaced: a second
attempt is made after a 1-second backoff sleep and its success is
returned, so the failure is not reported after exactly one attempt. -/
theorem make_request_retries_after_failure :
    makeRequest [AttemptOutcome.requestError "connection refused",
        AttemptOutcome.ok "data", AttemptOutcome.ok "data"]
      = ⟨Except.ok "data", 2, [1]⟩
  ∧ (makeRequest [AttemptOutcome.requestError "connection refused",
        AttemptOutcome.ok "data", AttemptOutcome.ok "data"]).attempts ≠ 1 := by
  exact ⟨rfl, by decide⟩

/-- C3 (amended): no request path retries except
`EnhancedOpenMeteoClient._make_request`, which retries transport and HTTP
failures: with `max_retries` attempt slots all failing retriably, every
slot is used, an `APIError` is raised only after the last one, and the
loop sleeps `2 ^ attempt` seconds between consecutive attempts
(exponential backoff); a success or a 429 rate-limit outcome ends the loop
at once, the latter raised as `RateLimitError` without retry. -/
theorem make_request_retry_backoff_policy (outcomes : List AttemptOutcome)
    (h : ∀ o ∈ outcomes, retriableFailure o = true) :
    (makeRequest outcomes).attempts = outcomes.length
  ∧ (∃ m, (makeRequest outcomes).result = Except.error (APIError.apiError m))
  ∧ (makeRequest outcomes).sleeps
      = (List.range (outcomes.length - 1)).map (fun i => 2 ^ i)
  ∧ (∀ r rest, makeRequest (AttemptOutcome.rateLimited r :: rest)
        = ⟨Except.error (APIError.rateLimitError r), 1, []⟩)
  ∧ (∀ body rest, makeRequest (AttemptOutcome.ok body :: rest)
        = ⟨Except.ok body, 1, []⟩) := by
  have hh := makeRequestGo_all_fail outcomes h 0
  refine ⟨by simpa using hh.1, hh.2.1, ?_, fun r rest => rfl, fun body rest => rfl⟩
  have := hh.2.2
  simpa using this

/-- Witness for C3 (amended): three consecutive retriable failures consume
all three default attempts with backoff sleeps of 1 then 2 seconds. -/
theorem make_request_retry_backoff_policy_instance :
    (makeRequest [AttemptOutcome.httpStatusError 500 "err",
        AttemptOutcome.requestError "boom",
        AttemptOutcome.requestError "down"]).attempts = 3
  ∧ (makeRequest [AttemptOutcome.httpStatusError 500 "err",
        AttemptOutcome.requestError "boom",
        AttemptOutcome.requestError "down"]).sleeps = [1, 2] :=
  ⟨(make_request_retry_backoff_policy [AttemptOutcome.httpStatusError 500 "err",
      AttemptOutcome.requestError "boom", AttemptOutcome.requestError "down"]
      (by decide)).1,
   ((make_request_retry_backoff_policy [AttemptOutcome.httpStatusError 500 "err",
      AttemptOutcome.requestError "boom", AttemptOutcome.requestError "down"]
      (by decide)).2.2.1).trans (by decide)⟩

/-- C4: in `_handle_tool_with_validation`, validation runs strictly before
the handler: a validation failure yields the structured validation-error
result with the handler never invoked, and a handler exception is caught
and converted into a structured error result instead of propagating; the
handler runs only when validation succeeded. -/
theorem dispatch_validates_before_handler {A I R : Type}
    (gim : String → Except String (A → Except (List String) I))
    (validate : A → Except (List String) I) (handler : I → HandlerOutcome R)
    (name : String) (args : A) (hgim : gim name = Except.ok validate) :
    (∀ errs, validate args = Except.error errs →
        handle_tool_with_validation gim handler name args
          = (DispatchResult.validationError ("Invalid input for " ++ name) errs, false))
  ∧ (∀ input t m, validate args = Except.ok input →
        handler input = HandlerOutcome.exn t m →
        handle_tool_with_validation gim handler name args
          = (DispatchResult.handlerError t m, true))
  ∧ (∀ input r, validate args = Except.ok input → handler input = HandlerOutcome.ok r →
        handle_tool_with_validation gim handler name args
          = (DispatchResult.success r, true))
  ∧ (∀ res, handle_tool_with_validation gim handler name args = res → res.2 = true →
        ∃ input, validate args = Except.ok input) := by
  refine ⟨?_, ?_, ?_, ?_⟩
  · intro errs hv
    simp [handle_tool_with_validation, hgim, hv]
  · intro input t m hv hh
    simp [handle_tool_with_validation, hgim, hv, hh]
  · intro input r hv hh
    simp [handle_tool_with_validation, hgim, hv, hh]
  · intro res hres htrue
    cases hv : validate args with
    | ok input => exact ⟨input, rfl⟩
    | error errs =>
      rw [← hres] at htrue
      simp [handle_tool_with_validation, hgim, hv] at htrue

/-- Witness for C4: on a concrete registry whose validator rejects the
argument 0, dispatch returns the structured validation error without
running the handler. -/
theorem dispatch_validates_before_handler_instance :
    handle_tool_with_validation
        (fun _ : String => Except.ok (fun a : Nat =>
          if a = 0 then Except.error ["days: field required"] else Except.ok a))
        (fun _ : Nat => (HandlerOutcome.exn "ValueError" "boom" : HandlerOutcome Nat))
        "get_weather_forecast" 0
      = (DispatchResult.validationError ("Invalid input for " ++ "get_weather_forecast")
          ["days: field required"], false) :=
  (dispatch_validates_before_handler
      (fun _ : String => Except.ok (fun a : Nat =>
        if a = 0 then Except.error ["days: field required"] else Except.ok a))
      (fun a : Nat =>
        if a = 0 then Except.error ["days: field required"] else Except.ok a)
      (fun _ : Nat => (HandlerOutcome.exn "ValueError" "boom" : HandlerOutcome Nat))
      "get_weather_forecast" 0 rfl).1 ["days: field required"] (by simp)

/-- C5: errors in `MCPWeatherAgent.query` are asymmetric: while the round
finishes within the 120-second bound, any exception from the agent round
is caught and converted into a returned string and a normal round returns
its content, but elapse of the fixed timeout makes `query` raise the
timeout failure to the caller, and only the timeout ever does so. -/
theorem query_timeout_asymmetry (elapsed : Nat) (m s : String) :
    (elapsed ≤ 120 → MCPWeatherAgent.query elapsed (Except.error m)
        = QueryResult.returned ("An error occurred: " ++ m))
  ∧ (elapsed ≤ 120 → MCPWeatherAgent.query elapsed (Except.ok s)
        = QueryResult.returned s)
  ∧ (120 < elapsed → ∀ round, MCPWeatherAgent.query elapsed round
        = QueryResult.timeoutError "Query timed out after 120 seconds")
  ∧ (∀ round t, MCPWeatherAgent.query elapsed round = QueryResult.timeoutError t →
        120 < elapsed) := by
  refine ⟨?_, ?_, ?_, ?_⟩
  · intro h
    unfold MCPWeatherAgent.query query_timeout_seconds
    rw [if_neg (by omega)]
  · intro h
    unfold MCPWeatherAgent.query query_timeout_seconds
    rw [if_neg (by omega)]
  · intro h round
    unfold MCPWeatherAgent.query query_timeout_seconds
    rw [if_pos h]
  · intro round t hres
    by_contra hnot
    unfold MCPWeatherAgent.query query_timeout_seconds at hres
    rw [if_neg (by omega)] at hres
    cases round <;> simp at hres

/-- Witness for C5: a 60-second round whose body raised is converted to a
returned string, while any round at 121 seconds raises the timeout. -/
theorem query_timeout_asymmetry_instance :
    MCPWeatherAgent.query 60 (Except.error "tool call failed")
        = QueryResult.returned ("An error occurred: " ++ "tool call failed")
  ∧ MCPWeatherAgent.query 121 (Except.ok "done")
        = QueryResult.timeoutError "Query timed out after 120 seconds" :=
  ⟨(query_timeout_asymmetry 60 "tool call failed" "x").1 (by decide),
   (query_timeout_asymmetry 121 "y" "done").2.2.1 (by decide) (Except.ok "done")⟩

/-- C7: `get_coordinates_enhanced` returns the first-ranked geocoding
result unless the query carries a comma-separated qualifier, in which case
the earliest result whose name, admin-region and country words cover every
query part is preferred: for the ambiguous query Paris, Texas the result
whose admin region is Texas wins over the first-ranked French capital; a
query without a comma, or with no fully matching result, falls back to the
first-ranked result; and the stage-04 `get_coordinates` implements no
re-ranking, always taking the first result. -/
theorem geocoding_admin_reranking :
    get_coordinates_enhanced "Paris, Texas" [parisFrance, parisTexas]
        = some (parisTexas, "High")
  ∧ get_coordinates_enhanced "Paris" [parisFrance, parisTexas]
        = some (parisFrance, "Medium")
  ∧ (∀ loc r0 rest, pyStrip loc ≠ "" → pyIn "," loc = false →
        get_coordinates_enhanced loc (r0 :: rest) = some (r0, "Medium"))
  ∧ (∀ loc r0 rest hit, pyStrip loc ≠ "" → pyIn "," loc = true →
        (r0 :: rest).find? (matchesAllParts (locationParts loc)) = some hit →
        get_coordinates_enhanced loc (r0 :: rest) = some (hit, "High"))
  ∧ (∀ loc r0 rest, pyStrip loc ≠ "" →
        (r0 :: rest).find? (matchesAllParts (locationParts loc)) = none →
        get_coordinates_enhanced loc (r0 :: rest) = some (r0, "Medium"))
  ∧ (∀ r0 rest, get_coordinates_first (r0 :: rest) = some r0) := by
  refine ⟨rfl, rfl, ?_, ?_, ?_, fun r0 rest => rfl⟩
  · intro loc r0 rest hne hcomma
    simp [get_coordinates_enhanced, hne, hcomma]
  · intro loc r0 rest hit hne hcomma hfind
    simp [get_coordinates_enhanced, hne, hcomma, hfind]
  · intro loc r0 rest hne hfind
    cases hcomma : pyIn "," loc <;>
      simp [get_coordinates_enhanced, hne, hcomma, hfind]

/-- Witness for C7: a comma-free query returns the first-ranked result
unchanged. -/
theorem geocoding_admin_reranking_instance :
    get_coordinates_enhanced "Chicago" [parisFrance, parisTexas]
      = some (parisFrance, "Medium") :=
  geocoding_admin_reranking.2.2.1 "Chicago" parisFrance [parisTexas]
    (by decide) (by decide)

/-- C8: a successfully constructed `LocationInput` always satisfies the
coordinate invariant, latitude in [-90, 90] and longitude in [-180, 180]
when present, and a construction attempt with an out-of-range latitude or
longitude fails with a validation error, so no range-violating request
object is ever handed to a tool handler. -/
theorem location_input_range_invariant (loc : Option String) (lat lon : Option Rat)
    (li : LocationInput) (h : mkLocationInput loc lat lon = Except.ok li) :
    (∀ x, li.latitude = some x → -90 ≤ x ∧ x ≤ 90)
  ∧ (∀ y, li.longitude = some y → -180 ≤ y ∧ y ≤ 180)
  ∧ (∀ x : Rat, 90 < x ∨ x < -90 → ∀ l2 lon2,
        ∃ m, mkLocationInput l2 (some x) lon2 = Except.error m)
  ∧ (∀ y : Rat, 180 < y ∨ y < -180 → ∀ l2,
        ∃ m, mkLocationInput l2 none (some y) = Except.error m) := by
  refine ⟨?_, ?_, ?_, ?_⟩
  · intro x hx
    unfold mkLocationInput at h
    cases hla : validate_latitude lat with
    | error msg => rw [hla] at h; simp [Bind.bind, Except.bind] at h
    | ok lat2 =>
      rw [hla] at h
      cases hlo : validate_longitude lon with
      | error msg => rw [hlo] at h; simp [Bind.bind, Except.bind] at h
      | ok lon2 =>
        rw [hlo] at h
        simp only [Bind.bind, Except.bind] at h
        split at h
        case isTrue =>
          simp only [Except.ok.injEq] at h
          subst h
          simp only at hx
          subst hx
          cases lat with
          | none => simp [validate_latitude] at hla
          | some a =>
            by_cases hrange : (-90 : Rat) ≤ a ∧ a ≤ 90
            · simp [validate_latitude, hrange] at hla
              subst hla
              exact hrange
            · simp [validate_latitude, hrange] at hla
        case isFalse => simp at h
  · intro y hy
    unfold mkLocationInput at h
    cases hla : validate_latitude lat with
    | error msg => rw [hla] at h; simp [Bind.bind, Except.bind] at h
    | ok lat2 =>
      rw [hla] at h
      cases hlo : validate_longitude lon with
      | error msg => rw [hlo] at h; simp [Bind.bind, Except.bind] at h
      | ok lon2 =>
        rw [hlo] at h
        simp only [Bind.bind, Except.bind] at h
        split at h
        case isTrue =>
          simp only [Except.ok.injEq] at h
          subst h
          simp only at hy
          subst hy
          cases lon with
          | none => simp [validate_longitude] at hlo
          | some a =>
            by_cases hrange : (-180 : Rat) ≤ a ∧ a ≤ 180
            · simp [validate_longitude, hrange] at hlo
              subst hlo
              exact hrange
            · simp [validate_longitude, hrange] at hlo
        case isFalse => simp at h
  · intro x hx l2 lon2
    have hc : ¬(-90 ≤ x ∧ x ≤ 90) := by
      rcases hx with hgt | hlt
      · rintro ⟨_, hle⟩; exact absurd hle (not_le.mpr hgt)
      · rintro ⟨hge, _⟩; exact absurd hge (not_le.mpr hlt)
    refine ⟨"Latitude must be between -90 and 90, got " ++ toString x, ?_⟩
    simp [mkLocationInput, validate_latitude, hc, Bind.bind, Except.bind]
  · intro y hy l2
    have hc : ¬(-180 ≤ y ∧ y ≤ 180) := by
      rcases hy with hgt | hlt
      · rintro ⟨_, hle⟩; exact absurd hle (not_le.mpr hgt)
      · rintro ⟨hge, _⟩; exact absurd hge (not_le.mpr hlt)
    refine ⟨"Longitude must be between -180 and 180, got " ++ toString y, ?_⟩
    simp [mkLocationInput, validate_latitude, validate_longitude, hc,
      Bind.bind, Except.bind]

/-- Witness for C8: a valid construction carries in-range coordinates, and
latitude 95 is rejected with a validation error. -/
theorem location_input_range_invariant_instance :
    (-90 ≤ (42 : Rat) ∧ (42 : Rat) ≤ 90)
  ∧ (∃ m, mkLocationInput (some "Chicago") (some 95) (some 20)
        = Except.error m) :=
  ⟨(location_input_range_invariant none (some 42) (some (-87))
      ⟨none, some 42, some (-87)⟩ (by rfl)).1 42 rfl,
   (location_input_range_invariant none (some 42) (some (-87))
      ⟨none, some 42, some (-87)⟩ (by rfl)).2.2.1 95 (Or.inl (by norm_num))
      (some "Chicago") (some 20)⟩
